import Mathlib

/-!
Verification of the veriplagio repository (a Flask plagiarism-checking
front-end).  The development shallowly embeds the pure core of the three
`app.py` variants: the SerpApi source resolver, the DeepSeek report parser,
the highlighted-document builder and the percentage calculator.  Texts are
modelled as `List Char`; Python floats are modelled as exact rationals;
network requests are modelled by passing the outcome of the request
(exception or parsed data) as an explicit argument.
-/

/-! ### Models of the Python string builtins used by the code -/

/-- Whitespace characters recognised by Python's `str.split` / `str.strip`
(ASCII subset: space, tab, newline, carriage return, vertical tab, form feed). -/
def isSpace (c : Char) : Bool :=
  c == ' ' || c == '\t' || c == '\n' || c == '\r' || c == '\x0b' || c == '\x0c'

/-- Python `s.lstrip()`. -/
def lstrip (s : List Char) : List Char := s.dropWhile isSpace

/-- Python `s.rstrip()`. -/
def rstrip (s : List Char) : List Char := (s.reverse.dropWhile isSpace).reverse

/-- Python `s.strip()`: remove leading and trailing whitespace. -/
def pyStrip (s : List Char) : List Char := rstrip (lstrip s)

/-- Python `s.split()` with no argument: split on runs of whitespace,
discarding empty fields. -/
def pyWords (s : List Char) : List (List Char) :=
  (s.splitOnP isSpace).filter (fun w => w ≠ [])

/-- Python `len(s.split())`: the number of whitespace-separated words. -/
def wordCountPy (s : List Char) : Nat := (pyWords s).length

/-- First-occurrence split: `splitFirst needle hay = some (before, after)`
iff `hay = before ++ needle ++ after` at the leftmost occurrence of
`needle`, and `none` iff `needle` does not occur in `hay`.  This models
Python's `needle in hay`, `hay.partition(needle)` and
`hay.split(needle, 1)` at once. -/
def splitFirst (needle : List Char) : List Char → Option (List Char × List Char)
  | [] => if needle.isEmpty then some ([], []) else none
  | c :: rest =>
    if needle.isPrefixOf (c :: rest) then
      some ([], (c :: rest).drop needle.length)
    else
      match splitFirst needle rest with
      | some (pre, post) => some (c :: pre, post)
      | none => none

/-- Helper for `pySplitlines`: accumulate the current (reversed) line,
ending a line at `\r\n`, `\n` or `\r`, and always emitting a final line
at end of input. -/
def pySplitlinesAux (cur : List Char) : List Char → List (List Char)
  | [] => [cur.reverse]
  | '\r' :: '\n' :: rest => cur.reverse :: pySplitlinesAux [] rest
  | '\n' :: rest => cur.reverse :: pySplitlinesAux [] rest
  | '\r' :: rest => cur.reverse :: pySplitlinesAux [] rest
  | c :: rest => pySplitlinesAux (c :: cur) rest

/-- Whether the text ends in a line terminator. -/
def endsWithTerminator (s : List Char) : Bool :=
  match s.getLast? with
  | some '\n' => true
  | some '\r' => true
  | _ => false

/-- Python `s.splitlines()` (for the `\n`, `\r\n` and `\r` terminators):
no trailing empty line is produced when the text ends in a terminator, and
the empty text yields no lines. -/
def pySplitlines (s : List Char) : List (List Char) :=
  match s with
  | [] => []
  | _ =>
    let r := pySplitlinesAux [] s
    if endsWithTerminator s then r.dropLast else r

/-! ### Data model -/

/-- A plagiarized span as produced by the report parser: the dictionaries
`{"trecho": ..., "fonte": ...}` built by `analyze_plagiarism_with_source`. -/
structure PlagiarizedSpan where
  trecho : List Char
  fonte : List Char
deriving DecidableEq

/-! ### Source Resolver (`get_source_from_serpapi`, src/app.py lines 71-91
and src/veriplagio/app.py lines 42-58) -/

/-- One entry of `organic_results`; `link` is `none` when the JSON object
has no `"link"` key. -/
structure OrganicResult where
  link : Option (List Char)
deriving DecidableEq

/-- The parsed JSON body of a SerpApi response; `organic_results` is `none`
when the key is absent. -/
structure SerpData where
  organic_results : Option (List OrganicResult)
deriving DecidableEq

/-- Outcome of the `requests.get` / `raise_for_status` / `response.json()`
sequence inside the `try` block: either some exception was raised (network
error, non-2xx status via `raise_for_status`, malformed body) — all of
which the `except` clause catches — or a parsed body was obtained. -/
inductive SerpOutcome where
  | exn : SerpOutcome
  | ok : SerpData → SerpOutcome
deriving DecidableEq

/-- The sentinel string `"Fonte não encontrada"`. -/
def fonteNaoEncontrada : List Char := "Fonte não encontrada".data

/-- `get_source_from_serpapi`: on any exception return the sentinel;
otherwise take `data.get("organic_results", [])` and, when non-empty,
return `organic[0].get("link", sentinel)`; otherwise the sentinel. -/
def get_source_from_serpapi (req : SerpOutcome) : List Char :=
  match req with
  | .exn => fonteNaoEncontrada
  | .ok data =>
    match data.organic_results.getD [] with
    | r :: _ => r.link.getD fonteNaoEncontrada
    | [] => fonteNaoEncontrada

/-! ### External Analysis Client and Report Parser
(`analyze_plagiarism_with_source`) -/

/-- Outcome of the DeepSeek chat-completion POST: the HTTP status code,
and (for the 200 path) the completion string
`response.json()["choices"][0]["message"]["content"]`. -/
structure ChatResponse where
  status_code : Nat
  content : List Char

namespace Veriplagio

/-- One iteration of the parsing loop of src/veriplagio/app.py lines
93-115: classify `linha`, and return the chunk appended to
`resultado_bruto` together with the span appended (if any) to
`trechos_plagio`.  The `try` block fails (and the line passes through)
when `"Trecho:"` does not occur in the line (`IndexError` on `[1]`) or
when `"- Fonte:"` does not occur after it (`ValueError` on unpacking). -/
def processLinha (linha : List Char) : List Char × Option PlagiarizedSpan :=
  if "Trecho".data.isPrefixOf (pyStrip linha) then
    match splitFirst "Trecho:".data linha with
    | some (_, resto) =>
      let after_trecho := pyStrip resto
      match splitFirst "- Fonte:".data after_trecho with
      | some (t, f) =>
        let trecho := pyStrip t
        let fonte := pyStrip f
        ("Trecho: ".data ++ trecho ++ " - Fonte: ".data ++ fonte ++ ['\n'],
         some { trecho := trecho, fonte := fonte })
      | none => (linha ++ ['\n'], none)
    | none => (linha ++ ['\n'], none)
  else (linha ++ ['\n'], none)

/-- The loop body: extend the accumulated `(resultado_bruto,
trechos_plagio)` pair by one line. -/
def stepLinha (acc : List Char × List PlagiarizedSpan) (linha : List Char) :
    List Char × List PlagiarizedSpan :=
  let r := processLinha linha
  (acc.1 ++ r.1, acc.2 ++ r.2.toList)

/-- The whole parsing loop over the lines of the completion. -/
def parseLinhas (linhas : List (List Char)) : List Char × List PlagiarizedSpan :=
  linhas.foldl stepLinha ([], [])

/-- `analyze_plagiarism_with_source` of src/veriplagio/app.py: on a
non-200 status return the error string and no spans; otherwise parse the
completion line by line. -/
def analyze_plagiarism_with_source (resp : ChatResponse) :
    List Char × List PlagiarizedSpan :=
  if resp.status_code ≠ 200 then
    ("Erro na API DeepSeek (status: ".data ++ (Nat.repr resp.status_code).data
      ++ ")".data, [])
  else
    parseLinhas (pySplitlines resp.content)

end Veriplagio

namespace AppVariant

/-- One iteration of the parsing loop of src/app.py lines 122-141.  This
variant also recognises `Trecho: <excerpt>` with no `- Fonte:` delimiter,
and in both branches obtains the source from the Source Resolver
(`get_source_from_serpapi`) instead of the text on the line; the network
call is modelled by the explicit `resolver` argument. -/
def processLinha (resolver : List Char → List Char) (linha : List Char) :
    List Char × Option PlagiarizedSpan :=
  if "Trecho".data.isPrefixOf (pyStrip linha) then
    match splitFirst "Trecho:".data linha with
    | some (_, resto) =>
      let after_trecho := pyStrip resto
      match splitFirst "- Fonte:".data after_trecho with
      | some (t, _) =>
        let trecho := pyStrip t
        let fonte := resolver trecho
        ("Trecho: ".data ++ trecho ++ " - Fonte: ".data ++ fonte ++ ['\n'],
         some { trecho := trecho, fonte := fonte })
      | none =>
        let trecho := after_trecho
        let fonte := resolver trecho
        ("Trecho: ".data ++ trecho ++ " - Fonte: ".data ++ fonte ++ ['\n'],
         some { trecho := trecho, fonte := fonte })
    | none => (linha ++ ['\n'], none)
  else (linha ++ ['\n'], none)

/-- The loop body of the src/app.py parser. -/
def stepLinha (resolver : List Char → List Char)
    (acc : List Char × List PlagiarizedSpan) (linha : List Char) :
    List Char × List PlagiarizedSpan :=
  let r := processLinha resolver linha
  (acc.1 ++ r.1, acc.2 ++ r.2.toList)

/-- The whole parsing loop of the src/app.py parser. -/
def parseLinhas (resolver : List Char → List Char)
    (linhas : List (List Char)) : List Char × List PlagiarizedSpan :=
  linhas.foldl (stepLinha resolver) ([], [])

end AppVariant

/-! ### Highlighted Document Builder (`highlight_plagiarized_in_docx`,
src/veriplagio/app.py lines 119-146) -/

/-- Style of a docx run. -/
inductive RunStyle where
  | plain : RunStyle
  | highlighted : RunStyle
deriving DecidableEq

/-- A docx run: a styled piece of text. -/
structure DocRun where
  style : RunStyle
  text : List Char
deriving DecidableEq

/-- Insert a span into a list already sorted by excerpt length descending,
after every element of length greater than or equal to its own. -/
def insertSpanDesc (x : PlagiarizedSpan) :
    List PlagiarizedSpan → List PlagiarizedSpan
  | [] => [x]
  | y :: ys =>
    if x.trecho.length ≤ y.trecho.length then y :: insertSpanDesc x ys
    else x :: y :: ys

/-- Python `sorted(trechos_plagio, key=lambda x: len(x["trecho"]),
reverse=True)`: the stable sort by excerpt length descending (elements of
equal length keep their original relative order). -/
def sortSpansByLenDesc (l : List PlagiarizedSpan) : List PlagiarizedSpan :=
  l.foldl (fun acc x => insertSpanDesc x acc) []

/-- State of the highlighting loop.  python-docx semantics: the paragraph
is created with a single empty first run `normal_run`; every
`normal_run.add_text(...)` call appends text to that same first run, while
every `p.add_run(trecho)` appends a new run at the end of the paragraph.
So `normal_text` is the accumulated text of the first run and
`plagio_runs` the highlighted runs appended after it, in order. -/
structure HighlightState where
  normal_text : List Char
  plagio_runs : List (List Char)
  current_text : List Char

/-- One iteration of the highlighting loop: if the excerpt occurs in the
unconsumed text, partition at its first occurrence, append `before` to the
first run, append the excerpt as a new highlighted run, and continue with
`after`; otherwise skip the span. -/
def highlightStep (st : HighlightState) (t : PlagiarizedSpan) :
    HighlightState :=
  match splitFirst t.trecho st.current_text with
  | some (before, after) =>
    { normal_text := st.normal_text ++ before,
      plagio_runs := st.plagio_runs ++ [t.trecho],
      current_text := after }
  | none => st

/-- `highlight_plagiarized_in_docx`: sort the spans by excerpt length
descending, run the loop, append the remaining text to the first run, and
return the runs of the document in document order (the single plain first
run followed by the appended highlighted runs). -/
def highlight_plagiarized_in_docx (original_text : List Char)
    (trechos_plagio : List PlagiarizedSpan) : List DocRun :=
  let ordenados := sortSpansByLenDesc trechos_plagio
  let st := ordenados.foldl highlightStep
    { normal_text := [], plagio_runs := [], current_text := original_text }
  { style := RunStyle.plain, text := st.normal_text ++ st.current_text } ::
    st.plagio_runs.map (fun t => { style := RunStyle.highlighted, text := t })

/-- The concatenation of the text of all runs, in the order the runs
appear in the document. -/
def docText (runs : List DocRun) : List Char := (runs.map DocRun.text).flatten

/-! ### Percentage Calculator (`calculate_plagiarism_percentage`,
src/veriplagio/app.py lines 148-161) -/

/-- Round half to even (Python's `round` on an exact value). -/
def roundHalfEven (q : ℚ) : ℤ :=
  if q - ⌊q⌋ < 1/2 then ⌊q⌋
  else if 1/2 < q - ⌊q⌋ then ⌊q⌋ + 1
  else if ⌊q⌋ % 2 = 0 then ⌊q⌋ else ⌊q⌋ + 1

/-- Python `round(q, 2)` on an exact rational value. -/
def pyRound2 (q : ℚ) : ℚ := (roundHalfEven (q * 100) : ℚ) / 100

/-- `calculate_plagiarism_percentage`: the ratio of the summed word counts
of the span excerpts to the word count of the original text, times 100,
rounded to two decimals; 0.0 when the original text has no words. -/
def calculate_plagiarism_percentage (original_text : List Char)
    (trechos_plagio : List PlagiarizedSpan) : ℚ :=
  let total_words := wordCountPy original_text
  if total_words = 0 then 0
  else
    let plag_words :=
      trechos_plagio.foldl (fun acc item => acc + wordCountPy item.trecho) 0
    pyRound2 ((plag_words : ℚ) / (total_words : ℚ) * 100)

/-! ### Report variant (`verificar_plagio_relatorio`, src/app.py lines
145-172) -/

/-- One record of the simulated report. -/
structure ResultadoItem where
  fonte : List Char
  termos : Nat
  termos_comuns : Nat
  similitude : ℚ
  visualizar_link : List Char
deriving DecidableEq

/-- The hard-coded `resultados` list of `verificar_plagio_relatorio`. -/
def resultadosSimulados : List ResultadoItem :=
  [{ fonte := "https://quantumcloud.com/inovacao.pdf".data,
     termos := 1494, termos_comuns := 129, similitude := 3.7,
     visualizar_link := "#".data },
   { fonte := "https://exemplo.com/tecnologia-educacao.pdf".data,
     termos := 999, termos_comuns := 88, similitude := 2.1,
     visualizar_link := "#".data },
   { fonte := "https://outroexemplo.com/trabalho-academico.html".data,
     termos := 2000, termos_comuns := 300, similitude := 10.0,
     visualizar_link := "#".data }]

/-- `verificar_plagio_relatorio`: the word count of the input, the rounded
sum of the hard-coded similarity values, and the hard-coded records. -/
def verificar_plagio_relatorio (texto : List Char) :
    Nat × ℚ × List ResultadoItem :=
  let palavras_texto := wordCountPy texto
  let resultados := resultadosSimulados
  let total_similaridade := (resultados.map (fun item => item.similitude)).sum
  (palavras_texto, pyRound2 total_similaridade, resultados)

/-! ### Claim theorems -/

/-- C1 (refuted by the code, proved at the spec's own example): the
concatenation of the runs of the produced document, in document order, is
NOT the original text.  python-docx appends every plain piece to the
single first run `normal_run`, while each highlighted excerpt becomes a
new run appended at the end of the paragraph, so the document reads
`" on the matthe cat sat"` instead of `"the cat sat on the mat"`. -/
theorem highlight_concat_mismatch_c1 :
    docText (highlight_plagiarized_in_docx "the cat sat on the mat".data
      [{ trecho := "the cat sat".data, fonte := "f1".data },
       { trecho := "cat".data, fonte := "f2".data }]) ≠
      "the cat sat on the mat".data := by
  decide

/-- C3: the Source Resolver is a total function of the request outcome
(the `except` clause catches every exception the `try` block can raise, so
it never raises): an exception yields the sentinel, a missing or empty
`organic_results` yields the sentinel, and a non-empty `organic_results`
yields the first result's link. -/
theorem get_source_sentinel_c3 :
    get_source_from_serpapi .exn = fonteNaoEncontrada ∧
    (∀ d : SerpData, d.organic_results = none →
      get_source_from_serpapi (.ok d) = fonteNaoEncontrada) ∧
    (∀ d : SerpData, d.organic_results = some [] →
      get_source_from_serpapi (.ok d) = fonteNaoEncontrada) ∧
    (∀ (d : SerpData) (r : OrganicResult) (rs : List OrganicResult)
      (l : List Char), d.organic_results = some (r :: rs) → r.link = some l →
      get_source_from_serpapi (.ok d) = l) := by
  refine ⟨rfl, ?_, ?_, ?_⟩
  · intro d h
    simp [get_source_from_serpapi, h]
  · intro d h
    simp [get_source_from_serpapi, h]
  · intro d r rs l h hl
    simp [get_source_from_serpapi, h, hl]

/-- Witness for C3 at concrete inputs: a response with one organic result
carrying a link yields that link, and a response with an empty result list
yields the sentinel. -/
theorem get_source_sentinel_c3_witness :
    get_source_from_serpapi (.ok ⟨some [⟨some "http://a.test".data⟩]⟩) =
      "http://a.test".data ∧
    get_source_from_serpapi (.ok ⟨some []⟩) = fonteNaoEncontrada :=
  ⟨get_source_sentinel_c3.2.2.2 ⟨some [⟨some "http://a.test".data⟩]⟩
      ⟨some "http://a.test".data⟩ [] "http://a.test".data rfl rfl,
   get_source_sentinel_c3.2.2.1 ⟨some []⟩ rfl⟩

/-- C4: on the text `"the cat sat on the mat"` with spans
`"the cat sat"` and `"cat"`, the builder (which sorts by excerpt length
descending) emits exactly one highlighted run, `"the cat sat"`; the
excerpt `"cat"` is skipped because it does not occur in the remaining
suffix `" on the mat"`. -/
theorem highlight_longest_first_c4 :
    ((highlight_plagiarized_in_docx "the cat sat on the mat".data
        [{ trecho := "the cat sat".data, fonte := "f1".data },
         { trecho := "cat".data, fonte := "f2".data }]).filter
      (fun r => r.style == RunStyle.highlighted)).map DocRun.text =
      ["the cat sat".data] := by
  decide

/-- C5: on a completion consisting of the single line
`Trecho: hello world - Fonte: http://x.test`, the parser produces exactly
one span with excerpt `hello world` and source `http://x.test`. -/
theorem parser_explicit_source_c5 :
    Veriplagio.analyze_plagiarism_with_source
      ⟨200, "Trecho: hello world - Fonte: http://x.test".data⟩ =
      ("Trecho: hello world - Fonte: http://x.test\n".data,
       [{ trecho := "hello world".data, fonte := "http://x.test".data }]) := by
  decide

/-- C8: whenever the chat-completion response carries a non-success
(non-2xx) status code, the client returns the error string naming that
status code together with an empty span list (a single request, no
retry: the function is a pure function of one response). -/
theorem analyze_error_status_c8 (resp : ChatResponse)
    (h : ¬ (200 ≤ resp.status_code ∧ resp.status_code < 300)) :
    Veriplagio.analyze_plagiarism_with_source resp =
      ("Erro na API DeepSeek (status: ".data ++ (Nat.repr resp.status_code).data
        ++ ")".data, []) := by
  have hne : resp.status_code ≠ 200 := by omega
  simp [Veriplagio.analyze_plagiarism_with_source, hne]

/-- Witness for C8 at status 404. -/
theorem analyze_error_status_c8_witness :
    Veriplagio.analyze_plagiarism_with_source ⟨404, "x".data⟩ =
      ("Erro na API DeepSeek (status: 404)".data, []) :=
  (analyze_error_status_c8 ⟨404, "x".data⟩ (by decide)).trans (by decide)

/-- C9: the report variant returns, for every input text, the same
hard-coded record list and the same total similarity 15.8; only the first
component (the whitespace-split word count of the input) depends on the
input. -/
theorem relatorio_hardcoded_c9 (texto : List Char) :
    verificar_plagio_relatorio texto =
      (wordCountPy texto, (15.8 : ℚ), resultadosSimulados) := by
  have hsum : ((resultadosSimulados.map (fun item => item.similitude)).sum : ℚ)
      = 79/5 := by
    simp [resultadosSimulados]
    norm_num
  have hround :
      pyRound2 ((resultadosSimulados.map (fun item => item.similitude)).sum)
        = (15.8 : ℚ) := by
    rw [hsum]
    unfold pyRound2 roundHalfEven
    norm_num
  show (wordCountPy texto,
      pyRound2 ((resultadosSimulados.map (fun item => item.similitude)).sum),
      resultadosSimulados) = _
  rw [hround]

/-- C10: the percentage calculator counts excerpt words that never occur
in the original text, so its result is not bounded by 100: on the
one-word text `"a"` with the single non-occurring two-word excerpt
`"b c"` it returns 200. -/
theorem percentage_not_bounded_c10 :
    100 < calculate_plagiarism_percentage "a".data
      [{ trecho := "b c".data, fonte := "f".data }] := by
  have h1 : wordCountPy "a".data = 1 := by decide
  have h2 : wordCountPy "b c".data = 2 := by decide
  have h : calculate_plagiarism_percentage "a".data
      [{ trecho := "b c".data, fonte := "f".data }] =
      pyRound2 ((2 : ℚ) / (1 : ℚ) * 100) := by
    simp [calculate_plagiarism_percentage, h1, h2]
  rw [h]
  unfold pyRound2 roundHalfEven
  norm_num

/-! ### Helper lemmas for C2, C6 and C7 -/

/-- Summing word counts by the left fold of the loop equals the sum over
the mapped list. -/
theorem foldl_wordCount_eq_sum (l : List PlagiarizedSpan) (n : ℕ) :
    l.foldl (fun acc item => acc + wordCountPy item.trecho) n =
      n + (l.map (fun s => wordCountPy s.trecho)).sum := by
  induction l generalizing n with
  | nil => simp
  | cons x xs ih =>
    simp only [List.foldl_cons, List.map_cons, List.sum_cons, ih]
    omega

/-- The first component of the parsing fold is the accumulator followed by
the per-line chunks in order. -/
theorem parseLinhas_fold_fst (linhas : List (List Char))
    (acc : List Char × List PlagiarizedSpan) :
    (linhas.foldl Veriplagio.stepLinha acc).1 =
      acc.1 ++ (linhas.map (fun l => (Veriplagio.processLinha l).1)).flatten := by
  induction linhas generalizing acc with
  | nil => simp
  | cons x xs ih =>
    simp only [List.foldl_cons, List.map_cons, List.flatten_cons, ih,
      Veriplagio.stepLinha, List.append_assoc]

/-- `lstrip` leaves a line that starts with the non-whitespace marker
untouched. -/
theorem lstrip_trecho (e : List Char) :
    lstrip ("Trecho: ".data ++ e) = "Trecho: ".data ++ e := by
  have h : "Trecho: ".data ++ e = 'T' :: ("recho: ".data ++ e) := rfl
  have hT : isSpace 'T' = false := rfl
  rw [h, lstrip, List.dropWhile_cons, hT]
  simp

/-- After `rstrip`, a line of the form `Trecho: <e>` still starts with the
marker `Trecho`. -/
theorem rstrip_trecho_isPrefix (e : List Char) :
    "Trecho".data.isPrefixOf (rstrip ("Trecho: ".data ++ e)) = true := by
  rw [rstrip, List.reverse_append, List.dropWhile_append]
  by_cases h : (List.dropWhile isSpace e.reverse).isEmpty
  · rw [if_pos h]
    decide
  · rw [if_neg h, List.reverse_append, List.reverse_reverse]
    rw [List.isPrefixOf_iff_prefix]
    exact ⟨':' :: ' ' :: (List.dropWhile isSpace e.reverse).reverse, rfl⟩

/-- After a full `strip`, a line of the form `Trecho: <e>` still starts
with the marker `Trecho`. -/
theorem pyStrip_trecho_isPrefix (e : List Char) :
    "Trecho".data.isPrefixOf (pyStrip ("Trecho: ".data ++ e)) = true := by
  rw [pyStrip, lstrip_trecho]
  exact rstrip_trecho_isPrefix e

/-- Splitting at a needle that sits at the very front of the text yields
the empty prefix and the remaining suffix. -/
theorem splitFirst_append_self (needle rest : List Char) :
    splitFirst needle (needle ++ rest) = some ([], rest) := by
  cases needle with
  | nil =>
    cases rest with
    | nil => rfl
    | cons c cs => simp [splitFirst]
  | cons n ns =>
    have hp : (n :: ns).isPrefixOf ((n :: ns) ++ rest) = true := by
      rw [List.isPrefixOf_iff_prefix]
      exact ⟨rest, rfl⟩
    show splitFirst (n :: ns) (n :: (ns ++ rest)) = some ([], rest)
    have hcons : (n :: (ns ++ rest)) = (n :: ns) ++ rest := rfl
    simp only [splitFirst, hcons, hp, if_true]
    simp [List.drop_left]

/-- Stripping ignores the single leading space left after the marker. -/
theorem pyStrip_space_cons (e : List Char) : pyStrip (' ' :: e) = pyStrip e := by
  have h : isSpace ' ' = true := rfl
  simp [pyStrip, lstrip, List.dropWhile_cons, h]

/-! ### Claim theorems (continued) -/

/-- C2: the percentage calculator returns 0 when the original text has no
words, and otherwise returns the rounded ratio
`round(100 * (sum of span excerpt word counts) / (text word count), 2)`,
with words counted by splitting on whitespace runs. -/
theorem percentage_formula_c2 (original_text : List Char)
    (trechos_plagio : List PlagiarizedSpan) :
    (wordCountPy original_text = 0 →
      calculate_plagiarism_percentage original_text trechos_plagio = 0) ∧
    (wordCountPy original_text ≠ 0 →
      calculate_plagiarism_percentage original_text trechos_plagio =
        pyRound2 (100 *
          ((trechos_plagio.map (fun s => (wordCountPy s.trecho : ℚ))).sum /
            (wordCountPy original_text : ℚ)))) := by
  constructor
  · intro h
    simp [calculate_plagiarism_percentage, h]
  · intro h
    show (if wordCountPy original_text = 0 then (0 : ℚ)
      else pyRound2
        (((trechos_plagio.foldl (fun acc item => acc + wordCountPy item.trecho)
            0 : ℕ) : ℚ) / (wordCountPy original_text : ℚ) * 100)) = _
    rw [if_neg h, foldl_wordCount_eq_sum]
    congr 1
    push_cast
    simp only [List.map_map, Function.comp_def]
    ring

/-- Witness for C2 on the two-word text `"a b"` with the one-word span
`"a"`: the non-zero branch of the formula applies. -/
theorem percentage_formula_c2_witness :
    calculate_plagiarism_percentage "a b".data
      [{ trecho := "a".data, fonte := "f".data }] =
      pyRound2 (100 *
        (([({ trecho := "a".data, fonte := "f".data } : PlagiarizedSpan)].map
            (fun s => (wordCountPy s.trecho : ℚ))).sum /
          (wordCountPy "a b".data : ℚ))) :=
  (percentage_formula_c2 "a b".data
    [{ trecho := "a".data, fonte := "f".data }]).2 (by decide)

/-- C6: the src/app.py parser recognises a finding line `Trecho: <e>`
carrying no `- Fonte:` delimiter, takes the trimmed text after the marker
as the excerpt, and attributes it the source returned by the Source
Resolver (the line is neither discarded nor passed through unparsed). -/
theorem parser_missing_source_c6 (resolver : List Char → List Char)
    (e : List Char)
    (h : splitFirst "- Fonte:".data (pyStrip e) = none) :
    AppVariant.parseLinhas resolver ["Trecho: ".data ++ e] =
      ("Trecho: ".data ++ pyStrip e ++ " - Fonte: ".data ++
        resolver (pyStrip e) ++ ['\n'],
       [{ trecho := pyStrip e, fonte := resolver (pyStrip e) }]) := by
  have hpre := pyStrip_trecho_isPrefix e
  have hsf : splitFirst "Trecho:".data ("Trecho: ".data ++ e) =
      some ([], ' ' :: e) := by
    have heq : "Trecho: ".data ++ e = "Trecho:".data ++ (' ' :: e) := rfl
    rw [heq, splitFirst_append_self]
  have hps := pyStrip_space_cons e
  have hproc : AppVariant.processLinha resolver ("Trecho: ".data ++ e) =
      ("Trecho: ".data ++ pyStrip e ++ " - Fonte: ".data ++
        resolver (pyStrip e) ++ ['\n'],
       some { trecho := pyStrip e, fonte := resolver (pyStrip e) }) := by
    unfold AppVariant.processLinha
    rw [if_pos hpre, hsf]
    dsimp only
    rw [hps, h]
  unfold AppVariant.parseLinhas
  rw [List.foldl_cons, List.foldl_nil]
  unfold AppVariant.stepLinha
  rw [hproc]
  simp

/-- Witness for C6: the line `Trecho: hello` with a constant resolver. -/
theorem parser_missing_source_c6_witness :
    AppVariant.parseLinhas (fun _ => "http://s.test".data)
      ["Trecho: ".data ++ "hello".data] =
      ("Trecho: ".data ++ pyStrip "hello".data ++ " - Fonte: ".data ++
        (fun _ => "http://s.test".data) (pyStrip "hello".data) ++ ['\n'],
       [{ trecho := pyStrip "hello".data,
          fonte := (fun _ => "http://s.test".data) (pyStrip "hello".data) }]) :=
  parser_missing_source_c6 (fun _ => "http://s.test".data) "hello".data
    (by decide)

/-- C7: the parser never aborts (it is a total function); the rebuilt
output is the in-order concatenation of one chunk per input line, and a
line passes through unmodified (followed by the `\n` the rebuild inserts)
whenever it is not a finding line — it does not start, after stripping,
with `Trecho` — or its parsing fails, because `Trecho:` does not occur in
it or because `- Fonte:` does not occur after the marker. -/
theorem parser_pass_through_c7 :
    (∀ linhas : List (List Char),
      (Veriplagio.parseLinhas linhas).1 =
        (linhas.map (fun l => (Veriplagio.processLinha l).1)).flatten) ∧
    (∀ linha : List Char,
      "Trecho".data.isPrefixOf (pyStrip linha) = false →
      Veriplagio.processLinha linha = (linha ++ ['\n'], none)) ∧
    (∀ linha : List Char,
      splitFirst "Trecho:".data linha = none →
      Veriplagio.processLinha linha = (linha ++ ['\n'], none)) ∧
    (∀ (linha pre resto : List Char),
      splitFirst "Trecho:".data linha = some (pre, resto) →
      splitFirst "- Fonte:".data (pyStrip resto) = none →
      Veriplagio.processLinha linha = (linha ++ ['\n'], none)) := by
  refine ⟨?_, ?_, ?_, ?_⟩
  · intro linhas
    rw [Veriplagio.parseLinhas, parseLinhas_fold_fst]
    simp
  · intro linha hne
    simp [Veriplagio.processLinha, hne]
  · intro linha hone
    simp only [Veriplagio.processLinha, hone]
    split <;> rfl
  · intro linha pre resto hone htwo
    simp only [Veriplagio.processLinha, hone, htwo]
    split <;> rfl

/-- Witness for C7: a non-finding line and a malformed finding line both
pass through unchanged. -/
theorem parser_pass_through_c7_witness :
    Veriplagio.processLinha "linha comum".data =
      ("linha comum".data ++ ['\n'], none) ∧
    Veriplagio.processLinha "Trecho sem marcador".data =
      ("Trecho sem marcador".data ++ ['\n'], none) ∧
    (Veriplagio.parseLinhas ["linha comum".data]).1 =
      (["linha comum".data].map
        (fun l => (Veriplagio.processLinha l).1)).flatten :=
  ⟨parser_pass_through_c7.2.1 "linha comum".data (by decide),
   parser_pass_through_c7.2.2.1 "Trecho sem marcador".data (by decide),
   parser_pass_through_c7.1 ["linha comum".data]⟩
